import Mathlib

/-!
Verification of the spherical-harmonics primitive library (`sphericalharmonics.rs`).

The Rust functions are shallowly embedded as Lean functions.  Floating-point
(`f64`) arithmetic is idealised as exact field arithmetic: the pure Legendre
evaluators (`plmcos` and the two derivative evaluators) are polymorphic over a
field, so that they can be evaluated exactly over `ℚ` and reasoned about over
`ℝ`; the evaluators that use `sqrt`, `sin`, `cos`, `exp` (`ylmnorm`, `dlkm`)
are valued in `ℝ`.  Machine-integer parameters (`u16`, `u32`, `i16`, `i32`)
are idealised as `ℕ`/`ℤ`; the one explicitly fallible conversion in the source
(`l.try_into().unwrap()` from `u32` to `i32` in `dlkm`) is modelled as a
distinct failure.  Functions that can panic return `Except RustError`.
-/

/-- The ways a function of this library can fail: an assert with a message
(`assert!` in the source), or the `u32 → i32` conversion `unwrap` in `dlkm`. -/
inductive RustError where
  | invalidArgument : String → RustError
  | unwrapPanic : RustError
deriving DecidableEq

/-- The message of the `plmcos` range assert. -/
def plmcosMsg : String := "plmcos: m > l"

/-- The `ODDFAC` table of `plmcos`: `ODDFAC[n] = (2n-1)!!` for `n = 1..13`,
with a dummy `0` entry at index `0` (values as in the source, which are the
exact double factorials). -/
def ODDFAC : List ℕ :=
  [0, 1, 3, 15, 105, 945, 10395, 135135, 2027025, 34459425,
   654729075, 13749310575, 316234143225, 7905853580625]

/-- The `match m` block of `plmcos` computing `pmmcostheta`, the starting
value `P_m^m(cos θ)`.  For `m ≤ 4` closed forms, for `5 ≤ m ≤ 13` a table
lookup times `sinθ^m`, and for `m > 13` the iterative accumulation of the
double factorial starting from `ODDFAC.last() = (2·13-1)!!`, multiplying the
odd integers `27, 29, …, 2m-1` (note: in the source this branch does not
multiply by `sinθ^m`). -/
def pmm (K : Type) [Field K] (m : ℕ) (s : K) : K :=
  match m with
  | 0 => 1
  | 1 => s
  | 2 => 3 * s * s
  | 3 => 15 * s * s * s
  | 4 => 105 * s * s * s * s
  | _ =>
    if m ≤ 13 then ((ODDFAC.getD m 0 : ℕ) : K) * s ^ m
    else (List.range' 27 (m - 13) 2).foldl (fun acc i => acc * ((i : ℕ) : K))
      ((ODDFAC.getD 13 0 : ℕ) : K)

/-- The body of the `for i in m+2..=l` loop of `plmcos`: one step of the
three-term recurrence, rolling the two most recent values forward.  The pair
holds `(pmmcostheta, pm1mcostheta)`, i.e. `(P_{i-2}^m, P_{i-1}^m)`. -/
def plmStep (K : Type) [Field K] (m : ℕ) (c : K) (p : K × K) (i : ℕ) : K × K :=
  (p.2, (c * ((2 * i - 1 : ℕ) : K) * p.2 - ((i + m - 1 : ℕ) : K) * p.1) / ((i - m : ℕ) : K))

/-- The value computed by `plmcos` once the `m ≤ l` assert has passed. -/
def plmcosVal (K : Type) [Field K] (l m : ℕ) (s c : K) : K :=
  let pmmc := pmm K m s
  if l = m then pmmc
  else
    let pm1mc := c * pmmc * ((2 * m + 1 : ℕ) : K)
    if l = m + 1 then pm1mc
    else ((List.range' (m + 2) (l - (m + 1))).foldl (plmStep K m c) (pmmc, pm1mc)).2

/-- `plmcos(l, m, sinθ, cosθ)`: the associated Legendre function evaluator.
Panics (`Except.error`) with `plmcosMsg` when `m > l`. -/
def plmcos (K : Type) [Field K] (l m : ℕ) (s c : K) : Except RustError K :=
  if m ≤ l then Except.ok (plmcosVal K l m s c)
  else Except.error (RustError.invalidArgument plmcosMsg)

/-- `deriv1_plmcos_dtheta(l, m, sinθ, cosθ)`: first derivative of
`P_l^m(cos θ)` with respect to `θ`, via two `plmcos` evaluations.  A panic of
an inner `plmcos` call propagates (the call at degree `l` is evaluated
first, as in the source). -/
def deriv1_plmcos_dtheta (K : Type) [Field K] (l m : ℕ) (s c : K) :
    Except RustError K := do
  let p1 ← plmcos K l m s c
  let p2 ← plmcos K (l + 1) m s c
  pure ((-((l : K) + 1) * c * p1 + ((l - m + 1 : ℕ) : K) * p2) / s)

/-- `deriv2_plmcos_dtheta(l, m, sinθ, cosθ)`: second derivative of
`P_l^m(cos θ)` with respect to `θ`, via three `plmcos` evaluations. -/
def deriv2_plmcos_dtheta (K : Type) [Field K] (l m : ℕ) (s c : K) :
    Except RustError K := do
  let invSqrSintheta := 1 / (s * s)
  let p1 ← plmcos K l m s c
  let p2 ← plmcos K (l + 1) m s c
  let p3 ← plmcos K (l + 2) m s c
  pure (((l : K) + 1) * (1 + ((l : K) + 2) * c * c * invSqrSintheta) * p1
    - 2 * ((l - m + 1 : ℕ) : K) * ((l : K) + 2) * c * invSqrSintheta * p2
    + ((l - m + 1 : ℕ) : K) * ((l - m + 2 : ℕ) : K) * invSqrSintheta * p3)

/-- C1: evaluation of `plmcos` at the failing input `l = m = 14`,
`sinθ = 1/2`, `cosθ = 0`.  The `m > 13` branch of the source never multiplies
the accumulated double factorial by `sinθ^m`, so the function returns
`27!! = 213458046676875` independently of `sinθ`, while the claim (and the
doc comment of the source) requires `(2l-1)!!·sinθ^l = 27!!·(1/2)^14`. -/
theorem C1_plmcos_diag_m14_eval :
    plmcos ℚ 14 14 (1/2) 0 = Except.ok 213458046676875 ∧
      (213458046676875 : ℚ) ≠ 213458046676875 * (1/2 : ℚ) ^ 14 := by
  constructor
  · rw [plmcos, if_pos (by norm_num)]
    rw [plmcosVal]
    norm_num [pmm, ODDFAC, List.range']
  · norm_num

/-- C10: for `m > l`, both derivative evaluators fail with the inner `plmcos`
assert violation (message `"plmcos: m > l"`), propagated from the first inner
call, even though the derivative functions have no assert of their own. -/
theorem C10_derivs_propagate_plmcos_panic (l m : ℕ) (s c : ℝ) (h : l < m) :
    deriv1_plmcos_dtheta ℝ l m s c = Except.error (RustError.invalidArgument plmcosMsg) ∧
      deriv2_plmcos_dtheta ℝ l m s c = Except.error (RustError.invalidArgument plmcosMsg) := by
  have hp : plmcos ℝ l m s c = Except.error (RustError.invalidArgument plmcosMsg) := by
    rw [plmcos, if_neg (by omega)]
  constructor
  · simp only [deriv1_plmcos_dtheta]
    rw [hp]
    rfl
  · simp only [deriv2_plmcos_dtheta]
    rw [hp]
    rfl

/-- Witness for C10 at `l = 1`, `m = 3`. -/
theorem C10_derivs_propagate_plmcos_panic_w :
    deriv1_plmcos_dtheta ℝ 1 3 1 0 = Except.error (RustError.invalidArgument plmcosMsg) ∧
      deriv2_plmcos_dtheta ℝ 1 3 1 0 = Except.error (RustError.invalidArgument plmcosMsg) :=
  C10_derivs_propagate_plmcos_panic 1 3 1 0 (by norm_num)

